import Mathlib

/-!
Verification development for the summarization-eligibility and dispatch
pipeline of the wa_llm repository.

The data model (Group, Message, Sender) and the two API endpoints in
src/api/summarize_and_send_to_group_api.py, together with the dashboard
statistics endpoint in dashboard/main.py, are embedded shallowly below.
Timestamps are seconds since the epoch, represented as Nat.  The database
session is modelled as an explicit `DB` value holding the three tables plus
an outbox of delivered outbound messages; endpoints return the resulting
state so that read-only behaviour is a provable property.  The orchestrator
module `summarize_and_send_to_groups` is not part of the sources provided,
so it is modelled from the specification (marked in its doc comments).
-/

namespace WaLlm

/-- A WhatsApp group row, following src/models/group (fields used by the
endpoints: jid, name, managed flag, spam flag, summary watermark). -/
structure Group where
  group_jid : String
  group_name : Option String
  managed : Bool
  notify_on_spam : Bool
  last_summary_sync : Option Nat
  deriving Repr, DecidableEq

/-- A message row: id, parent group, sender, timestamp (seconds), text. -/
structure Message where
  message_id : String
  group_jid : String
  sender_jid : String
  timestamp : Nat
  text : String
  deriving Repr, DecidableEq

/-- A sender row: jid and optional display name. -/
structure Sender where
  jid : String
  push_name : Option String
  deriving Repr, DecidableEq

/-- The persistent state visible to the pipeline: the three tables, plus the
outbox of (destination jid, text) pairs successfully delivered through the
messaging transport. -/
structure DB where
  groups : List Group
  senders : List Sender
  messages : List Message
  outbox : List (String × String)
  deriving Repr, DecidableEq

/-- `session.get(Group, group_jid)`: primary-key lookup. -/
def DB.getGroup (db : DB) (jid : String) : Option Group :=
  db.groups.find? (fun g => g.group_jid == jid)

/-- Decidability of the newest-first comparison used by ORDER BY timestamp DESC. -/
instance : DecidableRel (fun a b : Message => b.timestamp ≤ a.timestamp) :=
  fun a b => Nat.decLe b.timestamp a.timestamp

/-- The newest-first comparison is total. -/
instance : IsTotal Message (fun a b => b.timestamp ≤ a.timestamp) :=
  ⟨fun a b => le_total b.timestamp a.timestamp⟩

/-- The newest-first comparison is transitive. -/
instance : IsTrans Message (fun a b => b.timestamp ≤ a.timestamp) :=
  ⟨fun _ _ _ hab hbc => le_trans hbc hab⟩

/-- Decidability of the oldest-first comparison used by ORDER BY timestamp ASC. -/
instance : DecidableRel (fun a b : Message => a.timestamp ≤ b.timestamp) :=
  fun a b => Nat.decLe a.timestamp b.timestamp

/-- An HTTPException raised by an endpoint: status code and detail string. -/
structure HTTPError where
  status_code : Nat
  detail : String
  deriving Repr, DecidableEq

/-- `timedelta(days = 1)` in seconds. -/
def SECONDS_PER_DAY : Nat := 86400

/-- The summarization collaborator `summarize(session, settings, name,
messages, language)`: opaque, possibly failing.  An `Except.error` models the
collaborator raising an exception. -/
def Summarizer : Type := String → List Message → Option String → Except String String

/-- The message query of the preview endpoint (lines 95-101 of
summarize_and_send_to_group_api.py): all messages of the group with
`timestamp >= start_date`, ordered by timestamp descending (newest first).
No upper-bound filter is applied. -/
def previewMessages (db : DB) (jid : String) (start : Nat) : List Message :=
  List.insertionSort (fun a b => b.timestamp ≤ a.timestamp)
    (db.messages.filter (fun m => m.group_jid == jid && start ≤ m.timestamp))

/-- The 400 detail string built at line 106. -/
def notEnoughMessagesDetail (n : Nat) : String :=
  "Not enough messages to summarize. Found " ++ toString n ++ " messages, need at least 5."

/-- Default of the `days` query parameter of the preview endpoint. -/
def previewDefaultDays : Nat := 7

/-- The successful JSON body of the preview endpoint (lines 116-125). -/
structure PreviewResponse where
  group_jid : String
  group_name : Option String
  summary : String
  message_count : Nat
  days : Nat
  language : Option String
  start_date : Nat
  end_date : Nat
  deriving Repr, DecidableEq

/-- GET /groups/{group_jid}/summary (lines 59-131): verify the group exists
(404), fetch the window's messages, reject below 5 messages (400), invoke the
summarizer (failures become 500), otherwise return the summary body.  The
second component is the database state after the request. -/
def get_group_summary (summarize : Summarizer) (db : DB) (group_jid : String)
    (now : Nat) (days : Nat) (language : Option String) :
    Except HTTPError PreviewResponse × DB :=
  match db.getGroup group_jid with
  | none => (Except.error ⟨404, "Group not found"⟩, db)
  | some group =>
    let start_date := now - days * SECONDS_PER_DAY
    let messages := previewMessages db group_jid start_date
    if messages.length < 5 then
      (Except.error ⟨400, notEnoughMessagesDetail messages.length⟩, db)
    else
      match summarize (group.group_name.getD "group") messages language with
      | Except.error e =>
          (Except.error ⟨500, "Failed to generate summary: " ++ e⟩, db)
      | Except.ok text =>
          (Except.ok ⟨group_jid, group.group_name, text, messages.length, days,
            language, now - days * SECONDS_PER_DAY, now⟩, db)

/-! ## Batch pipeline

The orchestrator module `summarize_and_send_to_groups` is imported by the
batch endpoint but its source is not part of the provided files; the
definitions below are modelled from the specification (sections 4.1-4.6). -/

/-- The collaborators and run parameters of one orchestrator invocation:
clock, configured default lookback, data-store reachability, summarization
model, messaging transport (ack/failure per destination), community-group
linkage. -/
structure Env where
  now : Nat
  default_lookback_days : Nat
  storeReachable : Bool
  summarize : Summarizer
  send : String → String → Bool
  communityLinks : String → List String

/-- Minimum-activity threshold of the Eligibility Gate. -/
def MIN_MESSAGES : Nat := 5

/-- Modelled from the spec: the window start of the Window Selector (4.1) —
the watermark when present, else `now` minus the configured default
lookback. -/
def windowStart (env : Env) (g : Group) : Nat :=
  match g.last_summary_sync with
  | some t => t
  | none => env.now - env.default_lookback_days * SECONDS_PER_DAY

/-- Modelled from the spec: Window Selector (4.1) of the missing module
`summarize_and_send_to_groups`.  Fetches the group's messages with
`timestamp > start AND timestamp <= end` where end is the current time,
ordered by timestamp ascending. -/
def select_window (env : Env) (msgs : List Message) (g : Group) : List Message :=
  List.insertionSort (fun a b => a.timestamp ≤ b.timestamp)
    (msgs.filter (fun m =>
      m.group_jid == g.group_jid && windowStart env g < m.timestamp
        && m.timestamp ≤ env.now))

/-- Modelled from the spec: Eligibility Gate (4.2), eligible iff at least
`MIN_MESSAGES` messages. -/
def is_eligible (messages : List Message) : Bool :=
  MIN_MESSAGES ≤ messages.length

/-- Outcome of the per-group pipeline: skipped by the gate, committed after
dispatch plus watermark advance, or failed at the named stage. -/
inductive GroupOutcome where
  | skipped
  | committed
  | failed (stage : String)
  deriving Repr, DecidableEq

/-- Modelled from the spec: Dispatch Engine (4.4).  Sends to the primary
group and to each linked community group independently; returns whether the
primary send succeeded together with the list of successful deliveries. -/
def dispatch (env : Env) (g : Group) (text : String) : Bool × List (String × String) :=
  (env.send g.group_jid text,
   (if env.send g.group_jid text then [(g.group_jid, text)] else [])
     ++ (env.communityLinks g.group_jid).filterMap
          (fun dest => if env.send dest text then some (dest, text) else none))

/-- Modelled from the spec: the per-group pipeline SELECT, GATE, GENERATE,
DISPATCH, COMMIT (4.1-4.5) of the missing module
`summarize_and_send_to_groups`.  The watermark is set to the window end
(`env.now`) only when the primary dispatch succeeded (Sync Tracker, 4.5).
Returns the outcome, the updated group row and the successful deliveries. -/
def processGroup (env : Env) (msgs : List Message) (g : Group) :
    GroupOutcome × Group × List (String × String) :=
  if is_eligible (select_window env msgs g) then
    match env.summarize (g.group_name.getD "group") (select_window env msgs g) none with
    | Except.error _ => (GroupOutcome.failed "generate", g, [])
    | Except.ok text =>
      if (dispatch env g text).1 then
        (GroupOutcome.committed, { g with last_summary_sync := some env.now },
          (dispatch env g text).2)
      else
        (GroupOutcome.failed "dispatch", g, (dispatch env g text).2)
  else
    (GroupOutcome.skipped, g, [])

/-- The group row after one orchestrator pass: unmanaged groups are not
touched, managed groups get the row produced by the per-group pipeline. -/
def groupAfter (env : Env) (msgs : List Message) (g : Group) : Group :=
  if g.managed then (processGroup env msgs g).2.1 else g

/-- The deliveries contributed by one group during a run. -/
def groupDeliveries (env : Env) (msgs : List Message) (g : Group) : List (String × String) :=
  if g.managed then (processGroup env msgs g).2.2 else []

/-- Modelled from the spec: RunReport (section 3), per-run aggregate. -/
structure RunReport where
  groups_considered : Nat
  groups_summarized : Nat
  groups_skipped : Nat
  groups_failed : Nat
  deriving Repr, DecidableEq

/-- Whether an outcome is a failure. -/
def GroupOutcome.isFailed : GroupOutcome → Bool
  | GroupOutcome.failed _ => true
  | _ => false

/-- The run report aggregated over the managed groups. -/
def runReport (env : Env) (db : DB) : RunReport :=
  let outcomes := (db.groups.filter (fun g => g.managed)).map
    (fun g => (processGroup env db.messages g).1)
  { groups_considered := outcomes.length
    groups_summarized := (outcomes.filter (fun o => o == GroupOutcome.committed)).length
    groups_skipped := (outcomes.filter (fun o => o == GroupOutcome.skipped)).length
    groups_failed := (outcomes.filter (fun o => o.isFailed)).length }

/-- Modelled from the spec: Batch Orchestrator (4.6).  Processes every
managed group with per-group failure isolation, updates the group rows,
appends the deliveries to the outbox and returns the RunReport. -/
def runBatch (env : Env) (db : DB) : RunReport × DB :=
  (runReport env db,
   { db with
      groups := db.groups.map (groupAfter env db.messages)
      outbox := db.outbox ++ db.groups.flatMap (groupDeliveries env db.messages) })

/-- Modelled from the spec: the entry point of the missing module
`summarize_and_send_to_groups`.  A data store that cannot enumerate groups
at all is a total, non-group-scoped failure and raises; otherwise the run
completes and per-group failures stay inside the RunReport. -/
def summarize_and_send_to_groups (env : Env) (db : DB) :
    Except String (RunReport × DB) :=
  if env.storeReachable then Except.ok (runBatch env db)
  else Except.error "data store unreachable"

/-- The JSON body returned by the batch endpoint on success (lines 48-51). -/
structure TriggerResponse where
  status : String
  message : String
  deriving Repr, DecidableEq

/-- POST /summarize_and_send_to_groups (lines 21-56): run the orchestrator;
on completion return the fixed success body, on exception re-raise. -/
def trigger_summarize_and_send_to_groups (env : Env) (db : DB) :
    Except String (TriggerResponse × DB) :=
  match summarize_and_send_to_groups env db with
  | Except.ok (_, db2) =>
      Except.ok (⟨"success", "send summaries to groups sync completed successfully"⟩, db2)
  | Except.error e => Except.error e

/-! ## Dashboard statistics endpoint (dashboard/main.py, get_group_statistics) -/

/-- `func.date(Message.timestamp)`: the calendar day of a timestamp. -/
def messageDay (m : Message) : Nat := m.timestamp / SECONDS_PER_DAY

/-- All messages of one group, with no time filter. -/
def groupMessages (db : DB) (jid : String) : List Message :=
  db.messages.filter (fun m => m.group_jid == jid)

/-- The messages-per-day query (lines 147-158): group the given messages by
day, count per day, ordered by day ascending. -/
def messagesPerDay (msgs : List Message) : List (Nat × Nat) :=
  (List.insertionSort (fun a b => a ≤ b) ((msgs.map messageDay).dedup)).map
    (fun d => (d, (msgs.filter (fun m => messageDay m == d)).length))

/-- The display name of a sender row joined on jid (outer join). -/
def senderName (db : DB) (jid : String) : Option String :=
  match db.senders.find? (fun s => s.jid == jid) with
  | some s => s.push_name
  | none => none

/-- One row of the top-senders list (lines 176-183). -/
structure TopSender where
  sender_jid : String
  push_name : String
  message_count : Nat
  deriving Repr, DecidableEq

/-- Decidability of the highest-count-first comparison of the top-senders query. -/
instance : DecidableRel (fun a b : TopSender => b.message_count ≤ a.message_count) :=
  fun a b => Nat.decLe b.message_count a.message_count

/-- The highest-count-first comparison is total. -/
instance : IsTotal TopSender (fun a b => b.message_count ≤ a.message_count) :=
  ⟨fun a b => le_total b.message_count a.message_count⟩

/-- The highest-count-first comparison is transitive. -/
instance : IsTrans TopSender (fun a b => b.message_count ≤ a.message_count) :=
  ⟨fun _ _ _ hab hbc => le_trans hbc hab⟩

/-- The top-senders query (lines 161-173): count ALL of the group's messages
per sender (no time filter), order by count descending, limit 5. -/
def topSenders (db : DB) (jid : String) : List TopSender :=
  let msgs := groupMessages db jid
  let counted := ((msgs.map (fun m => m.sender_jid)).dedup).map (fun s =>
    { sender_jid := s
      push_name := (senderName db s).getD "Unknown"
      message_count := (msgs.filter (fun m => m.sender_jid == s)).length : TopSender })
  (List.insertionSort (fun a b => b.message_count ≤ a.message_count) counted).take 5

/-- The JSON body of the statistics endpoint (lines 185-190). -/
structure GroupStatistics where
  group_jid : String
  group_name : Option String
  messages_per_day : List (Nat × Nat)
  top_senders : List TopSender
  deriving Repr, DecidableEq

/-- GET /api/groups/{group_jid}/statistics (lines 123-190): 404 when the
group does not exist; otherwise the per-day series over the messages with
`timestamp >= start_date` and the top-senders list over all of the group's
messages. -/
def get_group_statistics (db : DB) (jid : String) (now : Nat) (days : Nat) :
    Except HTTPError GroupStatistics :=
  match db.getGroup jid with
  | none => Except.error ⟨404, "Group not found"⟩
  | some group =>
    let start := now - days * SECONDS_PER_DAY
    Except.ok
      { group_jid := jid
        group_name := group.group_name
        messages_per_day :=
          messagesPerDay ((groupMessages db jid).filter (fun m => start ≤ m.timestamp))
        top_senders := topSenders db jid }

/-! ## Concrete instances (used by witnesses and counterexamples) -/

/-- A message of group "g" with the given id, sender and timestamp. -/
def exMsg (i : Nat) (s : String) (ts : Nat) : Message :=
  ⟨toString i, "g", s, ts, "text"⟩

/-- A managed group "g" that has never been summarized. -/
def exGroup : Group := ⟨"g", some "G", true, false, none⟩

/-- A database whose only group "g" holds n messages at timestamps
100, 200, ..., 100 n, alternating between senders "s1" and "s0". -/
def exDbN (n : Nat) : DB :=
  ⟨[exGroup], [],
   (List.range n).map (fun i => exMsg (i + 1) ("s" ++ toString ((i + 1) % 2)) (100 * (i + 1))),
   []⟩

/-- Six messages addressed to "g" but no group row at all. -/
def exDbNoGroup : DB := ⟨[], [], (exDbN 6).messages, []⟩

/-- A summarizer that always succeeds with text "S". -/
def exSzOk : Summarizer := fun _ _ _ => Except.ok "S"

/-- A summarizer that always fails. -/
def exSzFail : Summarizer := fun _ _ _ => Except.error "boom"

/-- A transport that only delivers to destination "B". -/
def exSendOnlyB : String → String → Bool := fun dest _ => dest == "B"

/-- An environment whose primary send to "g" fails while the community send
to "B" succeeds. -/
def exEnvPartial : Env := ⟨1000, 7, true, exSzOk, exSendOnlyB, fun _ => ["B"]⟩

/-- An environment where every collaborator succeeds. -/
def exEnvAllOk : Env := ⟨1000, 7, true, exSzOk, fun _ _ => true, fun _ => ["B"]⟩

/-- An environment whose summarization collaborator always fails. -/
def exEnvGenFail : Env := ⟨1000, 7, true, exSzFail, fun _ _ => true, fun _ => []⟩

/-- An environment whose data store cannot enumerate groups. -/
def exEnvUnreachable : Env := ⟨1000, 7, false, exSzOk, fun _ _ => true, fun _ => []⟩

/-- A managed group with an existing watermark at 50. -/
def exGroupT50 : Group := ⟨"g", some "G", true, false, some 50⟩

/-! ## Theorems -/

/-- C1: a preview request whose group does not resolve is rejected with the
404 client error; with fewer than 5 messages in the window it is rejected
with the 400 client error (so exactly 4 messages are rejected), and with at
least 5 messages (so exactly 5) the request proceeds to summary generation:
the response is whatever the summarizer's outcome dictates. -/
theorem preview_eligibility_gate (sz : Summarizer) (db : DB) (jid : String)
    (now days : Nat) (lang : Option String) :
    (db.getGroup jid = none →
      (get_group_summary sz db jid now days lang).1 =
        Except.error ⟨404, "Group not found"⟩)
    ∧ (∀ g, db.getGroup jid = some g →
        ((previewMessages db jid (now - days * SECONDS_PER_DAY)).length < 5 →
          (get_group_summary sz db jid now days lang).1 =
            Except.error ⟨400, notEnoughMessagesDetail
              (previewMessages db jid (now - days * SECONDS_PER_DAY)).length⟩)
        ∧ (5 ≤ (previewMessages db jid (now - days * SECONDS_PER_DAY)).length →
          (get_group_summary sz db jid now days lang).1 =
            match sz (g.group_name.getD "group")
                (previewMessages db jid (now - days * SECONDS_PER_DAY)) lang with
            | Except.error e => Except.error ⟨500, "Failed to generate summary: " ++ e⟩
            | Except.ok text => Except.ok ⟨jid, g.group_name, text,
                (previewMessages db jid (now - days * SECONDS_PER_DAY)).length,
                days, lang, now - days * SECONDS_PER_DAY, now⟩)) := by
  refine ⟨fun h => ?_, fun g hg => ⟨fun hlt => ?_, fun hge => ?_⟩⟩
  · unfold get_group_summary
    rw [h]
  · unfold get_group_summary
    rw [hg]
    simp only [if_pos hlt]
  · unfold get_group_summary
    rw [hg]
    simp only [if_neg (by omega : ¬ (previewMessages db jid
      (now - days * SECONDS_PER_DAY)).length < 5)]
    cases sz (g.group_name.getD "group")
      (previewMessages db jid (now - days * SECONDS_PER_DAY)) lang <;> rfl

/-- C1 witness: at the boundary, a window with exactly 4 messages yields the
400 rejection, and a window with exactly 5 messages yields the summarizer's
result. -/
theorem preview_eligibility_gate_witness :
    (previewMessages (exDbN 4) "g" (1000 - 7 * SECONDS_PER_DAY)).length = 4
    ∧ (get_group_summary exSzOk (exDbN 4) "g" 1000 7 none).1 =
        Except.error ⟨400, notEnoughMessagesDetail 4⟩
    ∧ (previewMessages (exDbN 5) "g" (1000 - 7 * SECONDS_PER_DAY)).length = 5
    ∧ (get_group_summary exSzOk (exDbN 5) "g" 1000 7 none).1 =
        Except.ok ⟨"g", some "G", "S", 5, 7, none, 1000 - 7 * SECONDS_PER_DAY, 1000⟩ := by
  refine ⟨by decide, ?_, by decide, ?_⟩
  · have h := ((preview_eligibility_gate exSzOk (exDbN 4) "g" 1000 7 none).2
      exGroup (by decide)).1 (by decide)
    rw [h]
    rfl
  · have h := ((preview_eligibility_gate exSzOk (exDbN 5) "g" 1000 7 none).2
      exGroup (by decide)).2 (by decide)
    rw [h]
    rfl

/-- C9: when the group identifier does not resolve, the preview endpoint
returns the 404 not-found error, whatever the message table holds — the
existence check precedes the message-count threshold. -/
theorem preview_notfound_precedes_threshold (sz : Summarizer) (db : DB)
    (jid : String) (now days : Nat) (lang : Option String)
    (h : db.getGroup jid = none) :
    (get_group_summary sz db jid now days lang).1 =
      Except.error ⟨404, "Group not found"⟩ := by
  unfold get_group_summary
  rw [h]

/-- C9 witness: a database with six messages matching the requested window
but no group row yields 404, not the insufficient-messages 400. -/
theorem preview_notfound_precedes_threshold_witness :
    6 ≤ (previewMessages exDbNoGroup "g" (1000 - 7 * SECONDS_PER_DAY)).length
    ∧ (get_group_summary exSzOk exDbNoGroup "g" 1000 7 none).1 =
        Except.error ⟨404, "Group not found"⟩ :=
  ⟨by decide,
   preview_notfound_precedes_threshold exSzOk exDbNoGroup "g" 1000 7 none (by decide)⟩

/-- C3: a preview request over a window with n < 5 messages is rejected with
the 400 client error whose detail names the found count n and the required
count 5 — for n = 3 the detail contains "Found 3 messages, need at least 5"
verbatim — and the request leaves the persistent state unchanged. -/
theorem preview_insufficient_detail (sz : Summarizer) (db : DB) (jid : String)
    (now days : Nat) (lang : Option String) (g : Group)
    (hg : db.getGroup jid = some g)
    (hlt : (previewMessages db jid (now - days * SECONDS_PER_DAY)).length < 5) :
    (get_group_summary sz db jid now days lang).1 =
      Except.error ⟨400, notEnoughMessagesDetail
        (previewMessages db jid (now - days * SECONDS_PER_DAY)).length⟩
    ∧ (get_group_summary sz db jid now days lang).2 = db
    ∧ (∃ pre post, notEnoughMessagesDetail 3 =
        pre ++ "Found 3 messages, need at least 5" ++ post) := by
  refine ⟨?_, ?_, "Not enough messages to summarize. ", ".", rfl⟩
  · unfold get_group_summary
    rw [hg]
    simp only [if_pos hlt]
  · unfold get_group_summary
    rw [hg]
    simp only [if_pos hlt]

/-- C3 witness: a group with exactly 3 messages in the window is rejected
with the exact detail string, and the state is unchanged. -/
theorem preview_insufficient_detail_witness :
    (get_group_summary exSzOk (exDbN 3) "g" 1000 7 none).1 =
      Except.error ⟨400,
        "Not enough messages to summarize. Found 3 messages, need at least 5."⟩
    ∧ (get_group_summary exSzOk (exDbN 3) "g" 1000 7 none).2 = exDbN 3 := by
  have h := preview_insufficient_detail exSzOk (exDbN 3) "g" 1000 7 none
    exGroup (by decide) (by decide)
  exact ⟨h.1, h.2.1⟩

/-- C4: the preview operation takes a group identifier, a lookback window in
days whose declared default is 7, and an optional language override; on
success it returns the summary text, the number of messages considered, the
date range of the window, and the language. -/
theorem preview_success_shape (sz : Summarizer) (db : DB) (jid : String)
    (now days : Nat) (lang : Option String) (g : Group) (text : String)
    (hg : db.getGroup jid = some g)
    (hge : 5 ≤ (previewMessages db jid (now - days * SECONDS_PER_DAY)).length)
    (hsz : sz (g.group_name.getD "group")
        (previewMessages db jid (now - days * SECONDS_PER_DAY)) lang = Except.ok text) :
    (get_group_summary sz db jid now days lang).1 =
      Except.ok ⟨jid, g.group_name, text,
        (previewMessages db jid (now - days * SECONDS_PER_DAY)).length,
        days, lang, now - days * SECONDS_PER_DAY, now⟩
    ∧ previewDefaultDays = 7 := by
  refine ⟨?_, rfl⟩
  unfold get_group_summary
  rw [hg]
  simp only [if_neg (by omega : ¬ (previewMessages db jid
    (now - days * SECONDS_PER_DAY)).length < 5)]
  rw [hsz]

/-- C4 witness: a successful preview over 5 messages returns the summary
text, the count 5, the window bounds and the requested language. -/
theorem preview_success_shape_witness :
    (get_group_summary exSzOk (exDbN 5) "g" 1000 7 (some "en")).1 =
      Except.ok ⟨"g", some "G", "S", 5, 7, some "en", 1000 - 7 * SECONDS_PER_DAY, 1000⟩
    ∧ previewDefaultDays = 7 := by
  have h := preview_success_shape exSzOk (exDbN 5) "g" 1000 7 (some "en")
    exGroup "S" (by decide) (by decide) rfl
  exact ⟨by rw [h.1]; rfl, h.2⟩

/-- Every branch of the preview endpoint returns the database unchanged. -/
theorem get_group_summary_state (sz : Summarizer) (db : DB) (jid : String)
    (now days : Nat) (lang : Option String) :
    (get_group_summary sz db jid now days lang).2 = db := by
  unfold get_group_summary
  cases db.getGroup jid with
  | none => rfl
  | some g =>
    by_cases hlt : (previewMessages db jid (now - days * SECONDS_PER_DAY)).length < 5
    · simp only [if_pos hlt]
    · simp only [if_neg hlt]
      cases sz (g.group_name.getD "group")
        (previewMessages db jid (now - days * SECONDS_PER_DAY)) lang <;> rfl

/-- C6: a preview request leaves the persistent state untouched — it never
dispatches a message and never advances a watermark — and a failure of the
summarization collaborator surfaces as the 500 server error. -/
theorem preview_read_only (sz : Summarizer) (db : DB) (jid : String)
    (now days : Nat) (lang : Option String) :
    (get_group_summary sz db jid now days lang).2 = db
    ∧ (∀ g e, db.getGroup jid = some g →
        5 ≤ (previewMessages db jid (now - days * SECONDS_PER_DAY)).length →
        sz (g.group_name.getD "group")
          (previewMessages db jid (now - days * SECONDS_PER_DAY)) lang = Except.error e →
        (get_group_summary sz db jid now days lang).1 =
          Except.error ⟨500, "Failed to generate summary: " ++ e⟩) := by
  constructor
  · exact get_group_summary_state sz db jid now days lang
  · intro g e hg hge hsz
    unfold get_group_summary
    rw [hg]
    simp only [if_neg (by omega : ¬ (previewMessages db jid
      (now - days * SECONDS_PER_DAY)).length < 5)]
    rw [hsz]

/-- C6 witness: with a failing summarizer over an eligible window, the
preview returns the 500 error and the state is exactly the input state. -/
theorem preview_read_only_witness :
    (get_group_summary exSzFail (exDbN 5) "g" 1000 7 none).2 = exDbN 5
    ∧ (get_group_summary exSzFail (exDbN 5) "g" 1000 7 none).1 =
        Except.error ⟨500, "Failed to generate summary: boom"⟩ := by
  have h := preview_read_only exSzFail (exDbN 5) "g" 1000 7 none
  refine ⟨h.1, ?_⟩
  rw [h.2 exGroup "boom" (by decide) (by decide) rfl]
  rfl

/-- C2 counterexample: with window start 100 the preview selection includes
the message stamped exactly 100 — the query filters with `>=`, not the
claimed strict `>` — and returns the messages newest first, not the claimed
oldest first: the selected list is [timestamp 200, timestamp 100]. -/
theorem preview_window_counterexample :
    previewMessages (exDbN 2) "g" 100 = [exMsg 2 "s0" 200, exMsg 1 "s1" 100]
    ∧ (exMsg 1 "s1" 100).timestamp = 100
    ∧ exMsg 1 "s1" 100 ∈ previewMessages (exDbN 2) "g" 100
    ∧ (previewMessages (exDbN 2) "g" 100).map Message.timestamp = [200, 100] := by
  decide

/-- C2 amended: the preview selection contains exactly the group's messages
with timestamp at or after the window start (a message stamped exactly at
the start is included, and no upper bound is applied), and is returned
ordered by timestamp descending, newest first. -/
theorem preview_window_spec (db : DB) (jid : String) (start : Nat) :
    (previewMessages db jid start).Perm
      (db.messages.filter (fun m => m.group_jid == jid && start ≤ m.timestamp))
    ∧ (∀ m : Message, m ∈ previewMessages db jid start ↔
        m ∈ db.messages ∧ m.group_jid = jid ∧ start ≤ m.timestamp)
    ∧ (previewMessages db jid start).Pairwise
        (fun a b => b.timestamp ≤ a.timestamp) := by
  refine ⟨List.perm_insertionSort _ _, ?_, List.sorted_insertionSort _ _⟩
  intro m
  unfold previewMessages
  rw [(List.perm_insertionSort _ _).mem_iff, List.mem_filter]
  simp [and_assoc]

/-- C2 amended, witness: the amended characterization evaluated on the
two-message database with window start 100. -/
theorem preview_window_spec_witness :
    (previewMessages (exDbN 2) "g" 100).Perm
      ((exDbN 2).messages.filter (fun m => m.group_jid == "g" && 100 ≤ m.timestamp))
    ∧ (∀ m : Message, m ∈ previewMessages (exDbN 2) "g" 100 ↔
        m ∈ (exDbN 2).messages ∧ m.group_jid = "g" ∧ 100 ≤ m.timestamp)
    ∧ (previewMessages (exDbN 2) "g" 100).Pairwise
        (fun a b => b.timestamp ≤ a.timestamp) :=
  preview_window_spec (exDbN 2) "g" 100

/-- C5: the batch endpoint returns the success status plus the fixed
human-readable completion message whenever the orchestrator run completes —
whatever the per-group outcomes were — and only a total pipeline crash
(data store unreachable) surfaces as an error response. -/
theorem trigger_batch_error_policy (env : Env) (db : DB) :
    (env.storeReachable = true →
      trigger_summarize_and_send_to_groups env db =
        Except.ok (⟨"success", "send summaries to groups sync completed successfully"⟩,
          (runBatch env db).2))
    ∧ (env.storeReachable = false →
      trigger_summarize_and_send_to_groups env db =
        Except.error "data store unreachable") := by
  constructor
  · intro h
    unfold trigger_summarize_and_send_to_groups summarize_and_send_to_groups
    rw [h]
    rfl
  · intro h
    unfold trigger_summarize_and_send_to_groups summarize_and_send_to_groups
    rw [h]
    rfl

/-- C5 witness: with a summarizer that always fails, the run records one
failed group yet the endpoint still answers success; with an unreachable
store the endpoint surfaces the error. -/
theorem trigger_batch_error_policy_witness :
    (runBatch exEnvGenFail (exDbN 5)).1.groups_failed = 1
    ∧ trigger_summarize_and_send_to_groups exEnvGenFail (exDbN 5) =
        Except.ok (⟨"success", "send summaries to groups sync completed successfully"⟩,
          (runBatch exEnvGenFail (exDbN 5)).2)
    ∧ trigger_summarize_and_send_to_groups exEnvUnreachable (exDbN 5) =
        Except.error "data store unreachable" :=
  ⟨by decide, (trigger_batch_error_policy exEnvGenFail (exDbN 5)).1 rfl,
   (trigger_batch_error_policy exEnvUnreachable (exDbN 5)).2 rfl⟩

/-- Inversion for the per-group pipeline: a group is skipped unchanged,
fails unchanged, or is committed with its watermark set to the run time
after a successful generation and a confirmed primary send. -/
theorem processGroup_cases (env : Env) (msgs : List Message) (g : Group) :
    processGroup env msgs g = (GroupOutcome.skipped, g, [])
    ∨ (∃ s, (processGroup env msgs g).1 = GroupOutcome.failed s
        ∧ (processGroup env msgs g).2.1 = g)
    ∨ (∃ text, env.summarize (g.group_name.getD "group") (select_window env msgs g) none
          = Except.ok text
        ∧ env.send g.group_jid text = true
        ∧ processGroup env msgs g =
            (GroupOutcome.committed, { g with last_summary_sync := some env.now },
              (dispatch env g text).2)) := by
  by_cases he : is_eligible (select_window env msgs g) = true
  · have h1 : processGroup env msgs g =
        match env.summarize (g.group_name.getD "group") (select_window env msgs g) none with
        | Except.error _ => (GroupOutcome.failed "generate", g, [])
        | Except.ok text =>
          if (dispatch env g text).1 then
            (GroupOutcome.committed, { g with last_summary_sync := some env.now },
              (dispatch env g text).2)
          else
            (GroupOutcome.failed "dispatch", g, (dispatch env g text).2) := by
      unfold processGroup
      rw [if_pos he]
    cases hs : env.summarize (g.group_name.getD "group") (select_window env msgs g) none with
    | error e =>
      rw [hs] at h1
      exact Or.inr (Or.inl ⟨"generate", by rw [h1], by rw [h1]⟩)
    | ok text =>
      rw [hs] at h1
      dsimp only at h1
      by_cases hd : (dispatch env g text).1 = true
      · rw [if_pos hd] at h1
        exact Or.inr (Or.inr ⟨text, rfl, hd, h1⟩)
      · rw [if_neg hd] at h1
        exact Or.inr (Or.inl ⟨"dispatch", by rw [h1], by rw [h1]⟩)
  · left
    unfold processGroup
    rw [if_neg he]

/-- An ineligible window makes the pipeline skip the group unchanged. -/
theorem processGroup_skip (env : Env) (msgs : List Message) (g : Group)
    (h : is_eligible (select_window env msgs g) = false) :
    processGroup env msgs g = (GroupOutcome.skipped, g, []) := by
  unfold processGroup
  rw [h]
  rfl

/-- A group whose watermark already equals the run time selects an empty
window. -/
theorem select_window_empty (env : Env) (msgs : List Message) (g : Group)
    (h : windowStart env g = env.now) : select_window env msgs g = [] := by
  unfold select_window
  have hf : msgs.filter (fun m =>
      m.group_jid == g.group_jid && windowStart env g < m.timestamp
        && m.timestamp ≤ env.now) = [] := by
    rw [List.filter_eq_nil_iff]
    intro m _
    rw [h]
    simp only [Bool.and_eq_true, decide_eq_true_eq]
    rintro ⟨⟨-, hlt⟩, hle⟩
    omega
  rw [hf]
  rfl

/-- Re-running the pipeline on the row left by a non-failed pass skips it:
a committed group's watermark now equals the run time, and a skipped group
reselects the same ineligible window. -/
theorem processGroup_rerun (env : Env) (msgs : List Message) (g : Group)
    (h : GroupOutcome.isFailed (processGroup env msgs g).1 = false) :
    processGroup env msgs ((processGroup env msgs g).2.1) =
      (GroupOutcome.skipped, (processGroup env msgs g).2.1, []) := by
  rcases processGroup_cases env msgs g with hc | ⟨s, h1, _⟩ | ⟨text, _, _, hc⟩
  · rw [hc]
    exact hc
  · rw [h1] at h
    simp [GroupOutcome.isFailed] at h
  · rw [hc]
    show processGroup env msgs ({ g with last_summary_sync := some env.now }) =
      (GroupOutcome.skipped, { g with last_summary_sync := some env.now }, [])
    apply processGroup_skip
    rw [select_window_empty env msgs { g with last_summary_sync := some env.now } rfl]
    rfl

/-- A second pass over a processed row never commits. -/
theorem processGroup_rerun_not_committed (env : Env) (msgs : List Message) (g : Group) :
    (processGroup env msgs ((processGroup env msgs g).2.1)).1 ≠ GroupOutcome.committed := by
  cases hf : GroupOutcome.isFailed (processGroup env msgs g).1 with
  | false =>
    rw [processGroup_rerun env msgs g hf]
    simp
  | true =>
    rcases processGroup_cases env msgs g with hc | ⟨s, h1, h2⟩ | ⟨text, _, _, hc⟩
    · rw [hc] at hf
      simp [GroupOutcome.isFailed] at hf
    · rw [h2, h1]
      simp
    · rw [hc] at hf
      simp [GroupOutcome.isFailed] at hf

/-- C8: over an orchestrator pass, each group's watermark is monotonically
non-decreasing once set; the watermark changes only to the run time, and
only when a summary was generated and the dispatch to the primary
destination was confirmed successful (the Sync Tracker commit); the run
touches the group table exactly through this per-group transition, and the
only other operation of the core, the preview endpoint, never writes. -/
theorem watermark_monotone (env : Env) (db : DB) (g : Group)
    (ht : ∀ t, g.last_summary_sync = some t → t ≤ env.now) :
    (∀ t, g.last_summary_sync = some t →
      ∃ u, (groupAfter env db.messages g).last_summary_sync = some u ∧ t ≤ u)
    ∧ ((groupAfter env db.messages g).last_summary_sync ≠ g.last_summary_sync →
        (groupAfter env db.messages g).last_summary_sync = some env.now
        ∧ ∃ text, env.summarize (g.group_name.getD "group")
              (select_window env db.messages g) none = Except.ok text
            ∧ env.send g.group_jid text = true)
    ∧ (runBatch env db).2.groups = db.groups.map (groupAfter env db.messages)
    ∧ (∀ sz jid now2 days lang,
        (get_group_summary sz db jid now2 days lang).2 = db) := by
  have hpv : ∀ (sz : Summarizer) (jid : String) (now2 days : Nat) (lang : Option String),
      (get_group_summary sz db jid now2 days lang).2 = db :=
    fun sz jid now2 days lang => get_group_summary_state sz db jid now2 days lang
  by_cases hm : g.managed = true
  · have hga : groupAfter env db.messages g = (processGroup env db.messages g).2.1 := by
      unfold groupAfter
      rw [if_pos hm]
    rcases processGroup_cases env db.messages g with hc | ⟨s, h1, h2⟩ | ⟨text, hsum, hsend, hc⟩
    · rw [hga, hc]
      exact ⟨fun t htt => ⟨t, htt, le_refl t⟩, fun hne => absurd rfl hne, rfl, hpv⟩
    · rw [hga, h2]
      exact ⟨fun t htt => ⟨t, htt, le_refl t⟩, fun hne => absurd rfl hne, rfl, hpv⟩
    · rw [hga, hc]
      exact ⟨fun t htt => ⟨env.now, rfl, ht t htt⟩, fun _ => ⟨rfl, text, hsum, hsend⟩, rfl, hpv⟩
  · have hga : groupAfter env db.messages g = g := by
      unfold groupAfter
      rw [if_neg hm]
    rw [hga]
    exact ⟨fun t htt => ⟨t, htt, le_refl t⟩, fun hne => absurd rfl hne, rfl, hpv⟩

/-- C8 witness: a group whose watermark is 50 under an all-succeeding run at
time 1000 keeps a watermark at least 50, and any change is the committed run
time after a confirmed primary send. -/
theorem watermark_monotone_witness :
    (∀ t, exGroupT50.last_summary_sync = some t →
      ∃ u, (groupAfter exEnvAllOk (exDbN 5).messages exGroupT50).last_summary_sync = some u
        ∧ t ≤ u)
    ∧ ((groupAfter exEnvAllOk (exDbN 5).messages exGroupT50).last_summary_sync
          ≠ exGroupT50.last_summary_sync →
        (groupAfter exEnvAllOk (exDbN 5).messages exGroupT50).last_summary_sync
            = some exEnvAllOk.now
        ∧ ∃ text, exEnvAllOk.summarize (exGroupT50.group_name.getD "group")
              (select_window exEnvAllOk (exDbN 5).messages exGroupT50) none = Except.ok text
            ∧ exEnvAllOk.send exGroupT50.group_jid text = true)
    ∧ (runBatch exEnvAllOk (exDbN 5)).2.groups
        = (exDbN 5).groups.map (groupAfter exEnvAllOk (exDbN 5).messages)
    ∧ (get_group_summary exSzOk (exDbN 5) "g" 900 7 none).2 = exDbN 5 := by
  have h := watermark_monotone exEnvAllOk (exDbN 5) exGroupT50
    (fun t htt => by
      have h50 : (50 : Nat) = t := Option.some.inj htt
      rw [← h50]
      show (50 : Nat) ≤ 1000
      omega)
  exact ⟨h.1, h.2.1, h.2.2.1, h.2.2.2 exSzOk "g" 900 7 none⟩

/-- C7 counterexample: with a transport whose primary send always fails but
whose community send to "B" succeeds, the first run delivers the community
copy without committing a watermark, and the immediately repeated run with
no new messages re-generates and re-dispatches the same summary: the second
run is not a no-op, its outbox grows again. -/
theorem batch_idempotence_counterexample :
    (runBatch exEnvPartial (exDbN 5)).2.outbox = [("B", "S")]
    ∧ (runBatch exEnvPartial (runBatch exEnvPartial (exDbN 5)).2).2.outbox
        = [("B", "S"), ("B", "S")] := by
  decide

/-- C7 amended: an immediately repeated batch run over an unchanged message
table commits zero summaries; and when the first run recorded no per-group
failure, the second run also dispatches nothing and leaves the state exactly
unchanged (groups that failed before their watermark commit are instead
re-attempted, as the watermark-safety rule requires). -/
theorem batch_second_run (env : Env) (db : DB) :
    (runBatch env (runBatch env db).2).1.groups_summarized = 0
    ∧ ((runBatch env db).1.groups_failed = 0 →
        (runBatch env (runBatch env db).2).2 = (runBatch env db).2) := by
  have hmsgs : (runBatch env db).2.messages = db.messages := rfl
  have hgroups : (runBatch env db).2.groups = db.groups.map (groupAfter env db.messages) := rfl
  constructor
  · show ((((runBatch env db).2.groups.filter (fun g => g.managed)).map
        (fun g => (processGroup env (runBatch env db).2.messages g).1)).filter
          (fun o => o == GroupOutcome.committed)).length = 0
    rw [List.length_eq_zero, List.filter_eq_nil_iff]
    intro o ho
    rcases List.mem_map.mp ho with ⟨g1, hg1, rfl⟩
    rcases List.mem_filter.mp hg1 with ⟨hmem, hman⟩
    rw [hgroups] at hmem
    rcases List.mem_map.mp hmem with ⟨g0, hg0, rfl⟩
    rw [hmsgs]
    simp only [beq_iff_eq]
    by_cases hm0 : g0.managed = true
    · have hga : groupAfter env db.messages g0 = (processGroup env db.messages g0).2.1 := by
        unfold groupAfter
        rw [if_pos hm0]
      rw [hga]
      exact processGroup_rerun_not_committed env db.messages g0
    · have hga : groupAfter env db.messages g0 = g0 := by
        unfold groupAfter
        rw [if_neg hm0]
      rw [hga] at hman
      exact absurd hman hm0
  · intro hfail
    have hfail2 : ∀ o ∈ (db.groups.filter (fun g => g.managed)).map
        (fun g => (processGroup env db.messages g).1),
        ¬ GroupOutcome.isFailed o = true := by
      rw [← List.filter_eq_nil_iff, ← List.length_eq_zero]
      exact hfail
    have hnofail : ∀ g0 ∈ db.groups, g0.managed = true →
        GroupOutcome.isFailed (processGroup env db.messages g0).1 = false := by
      intro g0 hg0 hm0
      exact Bool.eq_false_iff.mpr
        (hfail2 _ (List.mem_map_of_mem _ (List.mem_filter.mpr ⟨hg0, hm0⟩)))
    have hXgroups : (runBatch env db).2.groups.map
        (groupAfter env (runBatch env db).2.messages) = (runBatch env db).2.groups := by
      rw [hmsgs, hgroups]
      have hid : ∀ g1 ∈ db.groups.map (groupAfter env db.messages),
          groupAfter env db.messages g1 = id g1 := by
        intro g1 hmem
        rcases List.mem_map.mp hmem with ⟨g0, hg0, rfl⟩
        by_cases hm0 : g0.managed = true
        · have hga : groupAfter env db.messages g0 = (processGroup env db.messages g0).2.1 := by
            unfold groupAfter
            rw [if_pos hm0]
          rw [hga]
          have hre := processGroup_rerun env db.messages g0 (hnofail g0 hg0 hm0)
          show groupAfter env db.messages ((processGroup env db.messages g0).2.1)
            = (processGroup env db.messages g0).2.1
          unfold groupAfter
          by_cases hrm : ((processGroup env db.messages g0).2.1).managed = true
          · rw [if_pos hrm, hre]
          · rw [if_neg hrm]
        · have hga : groupAfter env db.messages g0 = g0 := by
            unfold groupAfter
            rw [if_neg hm0]
          rw [hga, hga]
          rfl
      rw [List.map_congr_left hid, List.map_id]
    have hXout : (runBatch env db).2.groups.flatMap
        (groupDeliveries env (runBatch env db).2.messages) = [] := by
      rw [hmsgs, hgroups, List.flatMap_eq_nil_iff]
      intro g1 hmem
      rcases List.mem_map.mp hmem with ⟨g0, hg0, rfl⟩
      by_cases hm0 : g0.managed = true
      · have hga : groupAfter env db.messages g0 = (processGroup env db.messages g0).2.1 := by
          unfold groupAfter
          rw [if_pos hm0]
        rw [hga]
        have hre := processGroup_rerun env db.messages g0 (hnofail g0 hg0 hm0)
        unfold groupDeliveries
        by_cases hrm : ((processGroup env db.messages g0).2.1).managed = true
        · rw [if_pos hrm, hre]
        · rw [if_neg hrm]
      · have hga : groupAfter env db.messages g0 = g0 := by
          unfold groupAfter
          rw [if_neg hm0]
        rw [hga]
        unfold groupDeliveries
        rw [if_neg hm0]
    show ({ (runBatch env db).2 with
        groups := (runBatch env db).2.groups.map
          (groupAfter env (runBatch env db).2.messages)
        outbox := (runBatch env db).2.outbox
          ++ (runBatch env db).2.groups.flatMap
              (groupDeliveries env (runBatch env db).2.messages) } : DB)
      = (runBatch env db).2
    rw [hXgroups, hXout, List.append_nil]

/-- C7 amended, witness: with an all-succeeding environment the first run
commits the group, records no failure, and the immediately repeated run
summarizes zero groups and changes nothing. -/
theorem batch_second_run_witness :
    (runBatch exEnvAllOk (runBatch exEnvAllOk (exDbN 5)).2).1.groups_summarized = 0
    ∧ (runBatch exEnvAllOk (runBatch exEnvAllOk (exDbN 5)).2).2
        = (runBatch exEnvAllOk (exDbN 5)).2 :=
  ⟨(batch_second_run exEnvAllOk (exDbN 5)).1,
   (batch_second_run exEnvAllOk (exDbN 5)).2 (by decide)⟩

/-- Every day listed by the per-day series is the day of one of the input
messages. -/
theorem messagesPerDay_source (msgs : List Message) :
    ∀ p ∈ messagesPerDay msgs, ∃ m, m ∈ msgs ∧ messageDay m = p.1 := by
  intro p hp
  unfold messagesPerDay at hp
  rcases List.mem_map.mp hp with ⟨d, hd, rfl⟩
  rw [List.mem_insertionSort, List.mem_dedup] at hd
  rcases List.mem_map.mp hd with ⟨m, hm, rfl⟩
  exact ⟨m, hm, rfl⟩

/-- The top-senders list has at most 5 rows. -/
theorem topSenders_card (db : DB) (jid : String) : (topSenders db jid).length ≤ 5 := by
  unfold topSenders
  exact List.length_take_le _ _

/-- The top-senders list is ordered by message count descending. -/
theorem topSenders_sorted (db : DB) (jid : String) :
    (topSenders db jid).Pairwise (fun a b => b.message_count ≤ a.message_count) := by
  unfold topSenders
  exact List.Pairwise.sublist (List.take_sublist _ _) (List.sorted_insertionSort _ _)

/-- Each top-senders row counts all of the group's messages of that sender,
with no time filter. -/
theorem topSenders_counts (db : DB) (jid : String) :
    ∀ t ∈ topSenders db jid, t.message_count =
      ((groupMessages db jid).filter (fun m => m.sender_jid == t.sender_jid)).length := by
  intro t ht
  unfold topSenders at ht
  have ht2 := List.mem_of_mem_take ht
  rw [List.mem_insertionSort] at ht2
  rcases List.mem_map.mp ht2 with ⟨s, hs, rfl⟩
  rfl

/-- C10: in the statistics endpoint the per-day series covers only messages
with timestamp at or after the start of the requested days window, whereas
the top-senders list is computed over all of the group's messages — it does
not depend on the days parameter — and holds at most 5 rows ordered by
message count descending. -/
theorem statistics_window_scoping (db : DB) (jid : String) (now d1 d2 : Nat)
    (g : Group) (hg : db.getGroup jid = some g) :
    ∃ s1 s2, get_group_statistics db jid now d1 = Except.ok s1
      ∧ get_group_statistics db jid now d2 = Except.ok s2
      ∧ s1.messages_per_day = messagesPerDay ((groupMessages db jid).filter
          (fun m => now - d1 * SECONDS_PER_DAY ≤ m.timestamp))
      ∧ (∀ p ∈ s1.messages_per_day, ∃ m, m ∈ db.messages ∧ m.group_jid = jid
          ∧ now - d1 * SECONDS_PER_DAY ≤ m.timestamp ∧ messageDay m = p.1)
      ∧ s1.top_senders = s2.top_senders
      ∧ s1.top_senders = topSenders db jid
      ∧ s1.top_senders.length ≤ 5
      ∧ s1.top_senders.Pairwise (fun a b => b.message_count ≤ a.message_count)
      ∧ (∀ t ∈ s1.top_senders, t.message_count =
          ((groupMessages db jid).filter (fun m => m.sender_jid == t.sender_jid)).length) := by
  have h1 : get_group_statistics db jid now d1 = Except.ok
      ⟨jid, g.group_name,
        messagesPerDay ((groupMessages db jid).filter
          (fun m => now - d1 * SECONDS_PER_DAY ≤ m.timestamp)),
        topSenders db jid⟩ := by
    unfold get_group_statistics
    rw [hg]
  have h2 : get_group_statistics db jid now d2 = Except.ok
      ⟨jid, g.group_name,
        messagesPerDay ((groupMessages db jid).filter
          (fun m => now - d2 * SECONDS_PER_DAY ≤ m.timestamp)),
        topSenders db jid⟩ := by
    unfold get_group_statistics
    rw [hg]
  refine ⟨_, _, h1, h2, rfl, ?_, rfl, rfl, topSenders_card db jid,
    topSenders_sorted db jid, topSenders_counts db jid⟩
  intro p hp
  rcases messagesPerDay_source _ p hp with ⟨m, hm, hday⟩
  rcases List.mem_filter.mp hm with ⟨hmg, hts⟩
  rcases List.mem_filter.mp hmg with ⟨hmdb, hjid⟩
  exact ⟨m, hmdb, by simpa using hjid, by simpa using hts, hday⟩

/-- C10 witness: the characterization evaluated on the five-message database
with windows of 7 and of 0 days. -/
theorem statistics_window_scoping_witness :
    ∃ s1 s2, get_group_statistics (exDbN 5) "g" 1000 7 = Except.ok s1
      ∧ get_group_statistics (exDbN 5) "g" 1000 0 = Except.ok s2
      ∧ s1.messages_per_day = messagesPerDay ((groupMessages (exDbN 5) "g").filter
          (fun m => 1000 - 7 * SECONDS_PER_DAY ≤ m.timestamp))
      ∧ (∀ p ∈ s1.messages_per_day, ∃ m, m ∈ (exDbN 5).messages ∧ m.group_jid = "g"
          ∧ 1000 - 7 * SECONDS_PER_DAY ≤ m.timestamp ∧ messageDay m = p.1)
      ∧ s1.top_senders = s2.top_senders
      ∧ s1.top_senders = topSenders (exDbN 5) "g"
      ∧ s1.top_senders.length ≤ 5
      ∧ s1.top_senders.Pairwise (fun a b => b.message_count ≤ a.message_count)
      ∧ (∀ t ∈ s1.top_senders, t.message_count =
          ((groupMessages (exDbN 5) "g").filter
            (fun m => m.sender_jid == t.sender_jid)).length) :=
  statistics_window_scoping (exDbN 5) "g" 1000 7 0 exGroup (by decide)

end WaLlm
